import Mathlib

/-!
Verification of the `deaura-amm` Jupiter adapter (`src/deaura-amm/src/amm.rs`,
`src/deaura-amm/src/constants.rs`).

Shallow embedding: Rust methods become Lean functions; `&mut self` mutation
becomes explicit state passing (`update` returns the new `DeauraAmm`);
`anyhow::Result` becomes `Except AmmError`.  Account addresses (`Pubkey`,
opaque 32-byte identifiers) are modelled as an inductive type: the five
compiled-in constants of `constants.rs` are distinct base58 strings, hence
distinct constructors; `Pubkey.find_program_address` is the platform's
deterministic derivation primitive, modelled symbolically by constructors
that record the seeds used (the repository treats it as an opaque external
primitive).  Arbitrary caller-supplied keys are `Pubkey.user n`.
Byte strings are `List Nat` with each byte reduced mod 256 where it is
produced.
-/

/-- Opaque 32-byte account identifier.  Constant constructors correspond to
the compiled-in constants of `constants.rs` plus the three well-known
program ids referenced by `account_metas`; `pdaGlobalState`,
`pdaVaultAuthority` and `pdaUserData` are the deterministic
program-derived addresses computed by the three `derive_*` helpers;
`user n` ranges over arbitrary externally supplied keys. -/
inductive Pubkey where
  | deauraProgram
  | vnxMint
  | goldcMint
  | vnxDepositVault
  | vnxRedeemVault
  | splTokenProgram
  | splAssociatedTokenProgram
  | systemProgram
  | pdaGlobalState
  | pdaVaultAuthority
  | pdaUserData (payer : Pubkey)
  | user (n : Nat)
deriving DecidableEq, Repr

/-- `DEAURA_PROGRAM_ID` from `constants.rs`. -/
def DEAURA_PROGRAM_ID : Pubkey := Pubkey.deauraProgram

/-- `VNX_MINT` from `constants.rs`. -/
def VNX_MINT : Pubkey := Pubkey.vnxMint

/-- `GOLDC_MINT` from `constants.rs`. -/
def GOLDC_MINT : Pubkey := Pubkey.goldcMint

/-- `VNX_DEPOSIT_VAULT` from `constants.rs` (deposit vault: VNX -> GOLDC). -/
def VNX_DEPOSIT_VAULT : Pubkey := Pubkey.vnxDepositVault

/-- `VNX_REDEEM_VAULT` from `constants.rs` (redeem vault: GOLDC -> VNX). -/
def VNX_REDEEM_VAULT : Pubkey := Pubkey.vnxRedeemVault

/-- `spl_token::ID`. -/
def SPL_TOKEN_ID : Pubkey := Pubkey.splTokenProgram

/-- `spl_associated_token_account::ID`. -/
def SPL_ASSOCIATED_TOKEN_ACCOUNT_ID : Pubkey := Pubkey.splAssociatedTokenProgram

/-- `solana_sdk::system_program::ID`. -/
def SYSTEM_PROGRAM_ID : Pubkey := Pubkey.systemProgram

/-- `DEPOSIT_IX_DISC` from `constants.rs`: Anchor discriminator of
`deposit(amount: u64)`. -/
def DEPOSIT_IX_DISC : List Nat := [242, 35, 198, 137, 82, 225, 242, 182]

/-- `REDEEM_IX_DISC` from `constants.rs`: Anchor discriminator of
`redeem(amount: u64)`. -/
def REDEEM_IX_DISC : List Nat := [184, 12, 86, 149, 70, 196, 97, 225]

/-- Error kinds of the adapter.  The Rust code returns `anyhow` string
errors; each constructor stands for one of the five error messages of the
spec's taxonomy, carrying the same data the message interpolates. -/
inductive AmmError where
  | unknownMarket (key : Pubkey)
  | accountNotFound (address : Pubkey)
  | malformedAccount
  | insufficientLiquidity
  | unsupportedAsset (mint : Pubkey)
deriving DecidableEq, Repr

/-- `DeauraDirection` from `amm.rs`. -/
inductive DeauraDirection where
  | Deposit
  | Redeem
deriving DecidableEq, Repr

/-- The `DeauraAmm` struct from `amm.rs`.  `vnx_reserve` is a `u128` in
Rust; it is only ever assigned `0` or a widened `u64` token amount, so a
`Nat` carries it exactly. -/
structure DeauraAmm where
  key : Pubkey
  label : String
  program_id : Pubkey
  vnx_vault : Pubkey
  direction : DeauraDirection
  vnx_reserve : Nat
deriving DecidableEq, Repr

/-- `AccountMeta` from `solana_sdk::instruction`. -/
structure AccountMeta where
  pubkey : Pubkey
  is_signer : Bool
  is_writable : Bool
deriving DecidableEq, Repr

/-- `AccountMeta::new(pubkey, signer)`: writable account reference. -/
def AccountMeta.new (pubkey : Pubkey) (signer : Bool) : AccountMeta :=
  ⟨pubkey, signer, true⟩

/-- `AccountMeta::new_readonly(pubkey, signer)`. -/
def AccountMeta.new_readonly (pubkey : Pubkey) (signer : Bool) : AccountMeta :=
  ⟨pubkey, signer, false⟩

/-- `Instruction` from `solana_sdk::instruction`; `data` is the raw byte
payload. -/
structure Instruction where
  program_id : Pubkey
  accounts : List AccountMeta
  data : List Nat
deriving DecidableEq, Repr

/-- `jupiter_amm_interface::Swap`; the adapter only ever emits
`Swap::TokenSwap`. -/
inductive Swap where
  | TokenSwap
deriving DecidableEq, Repr

/-- `jupiter_amm_interface::SwapAndAccountMetas`. -/
structure SwapAndAccountMetas where
  swap : Swap
  account_metas : List AccountMeta
deriving DecidableEq, Repr

/-- `jupiter_amm_interface::SwapMode`. -/
inductive SwapMode where
  | ExactIn
  | ExactOut
deriving DecidableEq, Repr

/-- The fields of `jupiter_amm_interface::QuoteParams` that exist on the
request; `quote` reads only `amount` and `input_mint`. -/
structure QuoteParams where
  amount : Nat
  input_mint : Pubkey
  output_mint : Pubkey
  swap_mode : SwapMode
deriving DecidableEq, Repr

/-- `jupiter_amm_interface::Quote` as constructed by `quote` in `amm.rs`:
`fee_pct` is a `rust_decimal::Decimal`, modelled as `Rat` (only
`Decimal::ZERO` is ever produced). -/
structure Quote where
  fee_pct : Rat
  in_amount : Nat
  out_amount : Nat
  fee_amount : Nat
  fee_mint : Pubkey
deriving DecidableEq, Repr

/-- The fields of `jupiter_amm_interface::SwapParams` that
`get_swap_and_account_metas` destructures (the rest is discarded by
`..`). -/
structure SwapParams where
  source_mint : Pubkey
  destination_mint : Pubkey
  source_token_account : Pubkey
  destination_token_account : Pubkey
  token_transfer_authority : Pubkey
  in_amount : Nat
deriving DecidableEq, Repr

/-- `jupiter_amm_interface::KeyedAccount`: an account identity together
with its raw payload (the payload is not inspected by
`from_keyed_account`). -/
structure KeyedAccount where
  key : Pubkey
  account : List Nat
deriving DecidableEq, Repr

/-- `AccountMap`: mapping from account identity to raw account payload. -/
def AccountMap := Pubkey → Option (List Nat)

/-- `DeauraAmm::derive_global_state`:
`find_program_address([b"global_state"], DEAURA_PROGRAM_ID)`. -/
def derive_global_state : Pubkey := Pubkey.pdaGlobalState

/-- `DeauraAmm::derive_vault_authority`:
`find_program_address([b"vault_authority"], DEAURA_PROGRAM_ID)`. -/
def derive_vault_authority : Pubkey := Pubkey.pdaVaultAuthority

/-- `DeauraAmm::derive_user_data`:
`find_program_address([b"user_state", payer], DEAURA_PROGRAM_ID)`. -/
def derive_user_data (payer : Pubkey) : Pubkey := Pubkey.pdaUserData payer

/-- `u64::to_le_bytes`: eight little-endian bytes. -/
def u64_to_le_bytes (n : Nat) : List Nat :=
  [n % 256, n / 2 ^ 8 % 256, n / 2 ^ 16 % 256, n / 2 ^ 24 % 256,
   n / 2 ^ 32 % 256, n / 2 ^ 40 % 256, n / 2 ^ 48 % 256, n / 2 ^ 56 % 256]

/-- `u64::from_le_bytes` on an 8-byte list. -/
def u64_from_le_bytes (bs : List Nat) : Nat :=
  bs.foldr (fun b acc => b + 256 * acc) 0

/-- `DeauraAmm::ix_data`: discriminator (8 bytes) followed by the amount as
a `u64` little-endian (8 bytes). -/
def ix_data (discriminator : List Nat) (amount : Nat) : List Nat :=
  discriminator ++ u64_to_le_bytes amount

/-- `DeauraAmm::account_metas`: the fixed 12-entry account list in the IDL
order (payer, global_state, vault_authority, goldc_mint,
payer_goldc_token_account, vnx_mint, payer_vnx_token_account, vnx_vault,
user_data, token_program, associated_token_program, system_program). -/
def account_metas (payer payer_goldc_ata payer_vnx_ata vnx_vault : Pubkey) :
    List AccountMeta :=
  [ AccountMeta.new payer true,
    AccountMeta.new derive_global_state false,
    AccountMeta.new derive_vault_authority false,
    AccountMeta.new GOLDC_MINT false,
    AccountMeta.new payer_goldc_ata false,
    AccountMeta.new VNX_MINT false,
    AccountMeta.new payer_vnx_ata false,
    AccountMeta.new vnx_vault false,
    AccountMeta.new (derive_user_data payer) false,
    AccountMeta.new_readonly SPL_TOKEN_ID false,
    AccountMeta.new_readonly SPL_ASSOCIATED_TOKEN_ACCOUNT_ID false,
    AccountMeta.new_readonly SYSTEM_PROGRAM_ID false ]

/-- `DeauraAmm::direction_from_source_mint`. -/
def direction_from_source_mint (source_mint : Pubkey) :
    Except AmmError DeauraDirection :=
  if source_mint = VNX_MINT then
    Except.ok DeauraDirection.Deposit
  else if source_mint = GOLDC_MINT then
    Except.ok DeauraDirection.Redeem
  else
    Except.error (AmmError.unsupportedAsset source_mint)

/-- `Amm::from_keyed_account` for `DeauraAmm`. -/
def from_keyed_account (keyed_account : KeyedAccount) :
    Except AmmError DeauraAmm :=
  let key := keyed_account.key
  if key = VNX_DEPOSIT_VAULT then
    Except.ok
      { key := key, label := "Deaura Vault (VNX→GOLDC)",
        program_id := DEAURA_PROGRAM_ID, vnx_vault := key,
        direction := DeauraDirection.Deposit, vnx_reserve := 0 }
  else if key = VNX_REDEEM_VAULT then
    Except.ok
      { key := key, label := "Deaura Vault (GOLDC→VNX)",
        program_id := DEAURA_PROGRAM_ID, vnx_vault := key,
        direction := DeauraDirection.Redeem, vnx_reserve := 0 }
  else
    Except.error (AmmError.unknownMarket key)

/-- `jupiter_amm_interface::try_get_account_data`: look the address up in
the map, failing when it is absent. -/
def try_get_account_data (account_map : AccountMap) (address : Pubkey) :
    Except AmmError (List Nat) :=
  match account_map address with
  | some data => Except.ok data
  | none => Except.error (AmmError.accountNotFound address)

/-- `spl_token::state::Account` (the token-account record), with the raw
32-byte fields kept as byte lists. -/
structure TokenAccount where
  mint : List Nat
  owner : List Nat
  amount : Nat
  delegate : Option (List Nat)
  state : Nat
  is_native : Option Nat
  delegated_amount : Nat
  close_authority : Option (List Nat)
deriving DecidableEq, Repr

/-- `spl_token::state::unpack_coption_key` on a 36-byte slice: 4-byte tag
(`[0,0,0,0]` = none, `[1,0,0,0]` = some) followed by a 32-byte key. -/
def unpack_coption_key (src : List Nat) : Except AmmError (Option (List Nat)) :=
  if src.take 4 = [0, 0, 0, 0] then Except.ok none
  else if src.take 4 = [1, 0, 0, 0] then Except.ok (some (src.drop 4))
  else Except.error AmmError.malformedAccount

/-- `spl_token::state::unpack_coption_u64` on a 12-byte slice: 4-byte tag
followed by a `u64` little-endian. -/
def unpack_coption_u64 (src : List Nat) : Except AmmError (Option Nat) :=
  if src.take 4 = [0, 0, 0, 0] then Except.ok none
  else if src.take 4 = [1, 0, 0, 0] then
    Except.ok (some (u64_from_le_bytes (src.drop 4)))
  else Except.error AmmError.malformedAccount

/-- `Account::unpack_from_slice` (layout: mint 0..32, owner 32..64, amount
64..72 `u64` LE, delegate 72..108 COption key, state byte 108, is_native
109..121 COption `u64`, delegated_amount 121..129 `u64` LE,
close_authority 129..165 COption key); `AccountState::try_from_primitive`
accepts only 0, 1, 2. -/
def unpack_from_slice (src : List Nat) : Except AmmError TokenAccount := do
  let delegate ← unpack_coption_key ((src.drop 72).take 36)
  let stateByte := src.getD 108 0
  if stateByte > 2 then throw AmmError.malformedAccount
  let native ← unpack_coption_u64 ((src.drop 109).take 12)
  let close ← unpack_coption_key ((src.drop 129).take 36)
  pure
    { mint := src.take 32, owner := (src.drop 32).take 32,
      amount := u64_from_le_bytes ((src.drop 64).take 8),
      delegate := delegate, state := stateByte, is_native := native,
      delegated_amount := u64_from_le_bytes ((src.drop 121).take 8),
      close_authority := close }

/-- `Pack::unpack` for `spl_token::state::Account`: the input must be
exactly 165 bytes, decode via `unpack_from_slice`, and the resulting
record must be initialized (`state ≠ 0`). -/
def TokenAccount.unpack (input : List Nat) : Except AmmError TokenAccount := do
  if input.length ≠ 165 then throw AmmError.malformedAccount
  let acc ← unpack_from_slice input
  if acc.state = 0 then throw AmmError.malformedAccount
  pure acc

/-- `Amm::update` for `DeauraAmm`: fetch this instance's vault payload,
unpack it as a token account, and overwrite `vnx_reserve` with the
widened balance.  Rust mutates `self`; here the new state is returned. -/
def DeauraAmm.update (self : DeauraAmm) (account_map : AccountMap) :
    Except AmmError DeauraAmm := do
  let vnx_vault_acc_data ← try_get_account_data account_map self.vnx_vault
  let token_acc ← TokenAccount.unpack vnx_vault_acc_data
  pure { self with vnx_reserve := token_acc.amount }

/-- `Amm::quote` for `DeauraAmm`: a 1:1 quote; when the input mint is
`GOLDC_MINT` the amount is `ensure!`d not to exceed the cached reserve. -/
def DeauraAmm.quote (self : DeauraAmm) (quote_params : QuoteParams) :
    Except AmmError Quote := do
  if quote_params.input_mint = GOLDC_MINT then
    if quote_params.amount ≤ self.vnx_reserve then pure ()
    else throw AmmError.insufficientLiquidity
  pure
    { fee_pct := 0, in_amount := quote_params.amount,
      out_amount := quote_params.amount, fee_amount := 0,
      fee_mint := quote_params.input_mint }

/-- `Amm::get_accounts_len` for `DeauraAmm`. -/
def DeauraAmm.get_accounts_len (_self : DeauraAmm) : Nat := 12

/-- The body of `Amm::get_swap_and_account_metas` up to the `Instruction`
value `ix` it builds (program id, the 12 account metas, and the 16-byte
payload). -/
def DeauraAmm.swap_instruction (_self : DeauraAmm) (swap_params : SwapParams) :
    Except AmmError Instruction := do
  let direction ← direction_from_source_mint swap_params.source_mint
  let (payer_vnx_ata, payer_goldc_ata, vnx_vault, ix_disc) :=
    match direction with
    | DeauraDirection.Deposit =>
        (swap_params.source_token_account,
         swap_params.destination_token_account, VNX_DEPOSIT_VAULT,
         DEPOSIT_IX_DISC)
    | DeauraDirection.Redeem =>
        (swap_params.destination_token_account,
         swap_params.source_token_account, VNX_REDEEM_VAULT,
         REDEEM_IX_DISC)
  let payer := swap_params.token_transfer_authority
  let metas := account_metas payer payer_goldc_ata payer_vnx_ata vnx_vault
  pure
    { program_id := DEAURA_PROGRAM_ID, accounts := metas,
      data := ix_data ix_disc swap_params.in_amount }

/-- `Amm::get_swap_and_account_metas` for `DeauraAmm`: the instruction's
account list under the generic `Swap::TokenSwap` tag. -/
def DeauraAmm.get_swap_and_account_metas (self : DeauraAmm)
    (swap_params : SwapParams) : Except AmmError SwapAndAccountMetas := do
  let ix ← self.swap_instruction swap_params
  pure { swap := Swap.TokenSwap, account_metas := ix.accounts }

/-- `Amm::clone_amm` for `DeauraAmm`: a field-by-field copy (the Rust code
clones the `String` label and copies every `Copy` field into a fresh
allocation, so the copy shares no mutable state with the original). -/
def DeauraAmm.clone_amm (self : DeauraAmm) : DeauraAmm :=
  { key := self.key, label := self.label, program_id := self.program_id,
    vnx_vault := self.vnx_vault, direction := self.direction,
    vnx_reserve := self.vnx_reserve }

/-! ### Sample instances used by witnesses -/

/-- A deposit-direction instance as produced by discovery on the deposit
vault. -/
def depositAmm : DeauraAmm :=
  { key := VNX_DEPOSIT_VAULT, label := "Deaura Vault (VNX→GOLDC)",
    program_id := DEAURA_PROGRAM_ID, vnx_vault := VNX_DEPOSIT_VAULT,
    direction := DeauraDirection.Deposit, vnx_reserve := 0 }

/-- A redeem-direction instance whose cached reserve has been updated to
`r`. -/
def redeemAmmWith (r : Nat) : DeauraAmm :=
  { key := VNX_REDEEM_VAULT, label := "Deaura Vault (GOLDC→VNX)",
    program_id := DEAURA_PROGRAM_ID, vnx_vault := VNX_REDEEM_VAULT,
    direction := DeauraDirection.Redeem, vnx_reserve := r }

/-! ### Claims about `quote` -/

/-- C1: on every instance (either direction) a quote whose input mint is
`GOLDC_MINT` succeeds — with `out_amount = in_amount = amount` — exactly
when the amount is at most the instance's own `vnx_reserve`, and
otherwise fails with `insufficientLiquidity`; the gate always reads the
instance's own cached reserve, whatever its direction. -/
theorem quote_redeem_liquidity_gate (self : DeauraAmm) (qp : QuoteParams)
    (h : qp.input_mint = GOLDC_MINT) :
    (qp.amount ≤ self.vnx_reserve →
      self.quote qp =
        Except.ok ⟨0, qp.amount, qp.amount, 0, qp.input_mint⟩) ∧
    (¬ qp.amount ≤ self.vnx_reserve →
      self.quote qp = Except.error AmmError.insufficientLiquidity) ∧
    ((∃ q, self.quote qp = Except.ok q ∧ q.out_amount = qp.amount) ↔
      qp.amount ≤ self.vnx_reserve) := by
  by_cases hle : qp.amount ≤ self.vnx_reserve
  · have hq : self.quote qp =
        Except.ok ⟨0, qp.amount, qp.amount, 0, qp.input_mint⟩ := by
      simp only [DeauraAmm.quote, h, ite_true, if_true, if_pos hle]
      rfl
    refine ⟨fun _ => hq, fun hc => absurd hle hc, ?_⟩
    exact ⟨fun _ => hle, fun _ => ⟨_, hq, rfl⟩⟩
  · have hq : self.quote qp = Except.error AmmError.insufficientLiquidity := by
      simp only [DeauraAmm.quote, h, ite_true, if_true, if_neg hle]
      rfl
    refine ⟨fun hc => absurd hc hle, fun _ => hq, ?_⟩
    constructor
    · rintro ⟨q, hqq, -⟩
      rw [hq] at hqq
      exact absurd hqq (by simp)
    · intro hc
      exact absurd hc hle

/-- C1 witness: on a deposit-direction instance whose cached reserve is 5,
a GOLDC-input quote of 3 succeeds 1:1 and a quote of 9 fails with
`insufficientLiquidity`. -/
theorem quote_redeem_liquidity_gate_witness :
    (DeauraAmm.quote
        ⟨VNX_DEPOSIT_VAULT, "Deaura Vault (VNX→GOLDC)", DEAURA_PROGRAM_ID,
          VNX_DEPOSIT_VAULT, DeauraDirection.Deposit, 5⟩
        ⟨3, GOLDC_MINT, VNX_MINT, SwapMode.ExactIn⟩ =
      Except.ok ⟨0, 3, 3, 0, GOLDC_MINT⟩) ∧
    (DeauraAmm.quote
        ⟨VNX_DEPOSIT_VAULT, "Deaura Vault (VNX→GOLDC)", DEAURA_PROGRAM_ID,
          VNX_DEPOSIT_VAULT, DeauraDirection.Deposit, 5⟩
        ⟨9, GOLDC_MINT, VNX_MINT, SwapMode.ExactIn⟩ =
      Except.error AmmError.insufficientLiquidity) :=
  ⟨(quote_redeem_liquidity_gate _ _ rfl).1 (by decide),
   (quote_redeem_liquidity_gate _ _ rfl).2.1 (by decide)⟩

/-- C5: a quote whose input mint is `VNX_MINT` (the deposit asset) always
succeeds with `out_amount = in_amount = amount`, zero fee and zero fee
rate, in both execution modes and for every output mint and instance; no
liquidity check is applied. -/
theorem quote_deposit_always_identity (self : DeauraAmm) (amount : Nat)
    (output_mint : Pubkey) (swap_mode : SwapMode) :
    self.quote ⟨amount, VNX_MINT, output_mint, swap_mode⟩ =
      Except.ok ⟨0, amount, amount, 0, VNX_MINT⟩ := rfl

/-- C9: `quote` performs no asset-type validation — any input mint other
than `GOLDC_MINT` (including mints that are neither known asset) yields a
successful 1:1 quote with zero fee and `fee_mint` equal to the input
mint; moreover the output mint and the execution mode never influence the
result of `quote`. -/
theorem quote_no_input_validation (self : DeauraAmm) (qp : QuoteParams)
    (h : qp.input_mint ≠ GOLDC_MINT) :
    self.quote qp = Except.ok ⟨0, qp.amount, qp.amount, 0, qp.input_mint⟩ ∧
    ∀ (s : DeauraAmm) (q : QuoteParams) (om : Pubkey) (sm : SwapMode),
      s.quote { q with output_mint := om, swap_mode := sm } = s.quote q := by
  constructor
  · simp only [DeauraAmm.quote, if_neg h]
    rfl
  · intro s q om sm
    rfl

/-- C9 witness: an unknown mint (`user 7`) as input quotes 1:1 with zero
fee on a deposit-direction instance. -/
theorem quote_no_input_validation_witness :
    DeauraAmm.quote depositAmm
        ⟨4, Pubkey.user 7, VNX_MINT, SwapMode.ExactOut⟩ =
      Except.ok ⟨0, 4, 4, 0, Pubkey.user 7⟩ :=
  (quote_no_input_validation depositAmm
    ⟨4, Pubkey.user 7, VNX_MINT, SwapMode.ExactOut⟩ (by decide)).1

/-! ### Claims about discovery -/

/-- C4: `from_keyed_account` succeeds exactly on the two registered vault
identities, fixing the direction, label, vault and a zero reserve from
the matched identity, and fails on every other identity with
`unknownMarket` carrying that identity. -/
theorem from_keyed_account_spec (ka : KeyedAccount) :
    (ka.key = VNX_DEPOSIT_VAULT →
      from_keyed_account ka = Except.ok
        { key := ka.key, label := "Deaura Vault (VNX→GOLDC)",
          program_id := DEAURA_PROGRAM_ID, vnx_vault := ka.key,
          direction := DeauraDirection.Deposit, vnx_reserve := 0 }) ∧
    (ka.key = VNX_REDEEM_VAULT →
      from_keyed_account ka = Except.ok
        { key := ka.key, label := "Deaura Vault (GOLDC→VNX)",
          program_id := DEAURA_PROGRAM_ID, vnx_vault := ka.key,
          direction := DeauraDirection.Redeem, vnx_reserve := 0 }) ∧
    (ka.key ≠ VNX_DEPOSIT_VAULT → ka.key ≠ VNX_REDEEM_VAULT →
      from_keyed_account ka = Except.error (AmmError.unknownMarket ka.key)) ∧
    (∀ amm, from_keyed_account ka = Except.ok amm →
      (ka.key = VNX_DEPOSIT_VAULT ∨ ka.key = VNX_REDEEM_VAULT) ∧
        amm.key = ka.key ∧ amm.vnx_vault = ka.key ∧ amm.vnx_reserve = 0) := by
  obtain ⟨k, acct⟩ := ka
  refine ⟨?_, ?_, ?_, ?_⟩
  · intro h
    replace h : k = VNX_DEPOSIT_VAULT := h
    subst h
    rfl
  · intro h
    replace h : k = VNX_REDEEM_VAULT := h
    subst h
    rfl
  · intro h1 h2
    replace h1 : k ≠ VNX_DEPOSIT_VAULT := h1
    replace h2 : k ≠ VNX_REDEEM_VAULT := h2
    simp only [from_keyed_account, if_neg h1, if_neg h2]
  · intro amm h
    by_cases h1 : k = VNX_DEPOSIT_VAULT
    · subst h1
      replace h : Except.ok (ε := AmmError)
          { key := VNX_DEPOSIT_VAULT, label := "Deaura Vault (VNX→GOLDC)",
            program_id := DEAURA_PROGRAM_ID, vnx_vault := VNX_DEPOSIT_VAULT,
            direction := DeauraDirection.Deposit, vnx_reserve := 0 } =
          Except.ok amm := h
      injection h with h
      subst h
      exact ⟨Or.inl rfl, rfl, rfl, rfl⟩
    · by_cases h2 : k = VNX_REDEEM_VAULT
      · subst h2
        replace h : Except.ok (ε := AmmError)
            { key := VNX_REDEEM_VAULT, label := "Deaura Vault (GOLDC→VNX)",
              program_id := DEAURA_PROGRAM_ID, vnx_vault := VNX_REDEEM_VAULT,
              direction := DeauraDirection.Redeem, vnx_reserve := 0 } =
            Except.ok amm := h
        injection h with h
        subst h
        exact ⟨Or.inr rfl, rfl, rfl, rfl⟩
      · replace h1 : k ≠ VNX_DEPOSIT_VAULT := h1
        replace h2 : k ≠ VNX_REDEEM_VAULT := h2
        replace h : Except.error (α := DeauraAmm)
            (AmmError.unknownMarket k) = Except.ok amm := by
          rw [← h]
          simp only [from_keyed_account, if_neg h1, if_neg h2]
        exact absurd h (by simp)

/-- C4 witness: the deposit vault identity is accepted with the
deposit-direction label and zero reserve, and an unregistered identity
(`user 42`) is rejected with `unknownMarket`. -/
theorem from_keyed_account_spec_witness :
    (from_keyed_account ⟨VNX_DEPOSIT_VAULT, []⟩ = Except.ok
        { key := VNX_DEPOSIT_VAULT, label := "Deaura Vault (VNX→GOLDC)",
          program_id := DEAURA_PROGRAM_ID, vnx_vault := VNX_DEPOSIT_VAULT,
          direction := DeauraDirection.Deposit, vnx_reserve := 0 }) ∧
    (from_keyed_account ⟨Pubkey.user 42, []⟩ =
      Except.error (AmmError.unknownMarket (Pubkey.user 42))) :=
  ⟨(from_keyed_account_spec ⟨VNX_DEPOSIT_VAULT, []⟩).1 rfl,
   (from_keyed_account_spec ⟨Pubkey.user 42, []⟩).2.2.1 (by decide) (by decide)⟩

/-! ### Claims about instruction construction -/

/-- Helper: little-endian `u64` encoding round-trips for amounts below
`2 ^ 64`. -/
theorem u64_le_roundtrip (n : Nat) (h : n < 2 ^ 64) :
    u64_from_le_bytes (u64_to_le_bytes n) = n := by
  simp only [u64_to_le_bytes, u64_from_le_bytes, List.foldr]
  omega

/-- Helper: an unsupported source mint makes both `swap_instruction` and
`get_swap_and_account_metas` fail with `unsupportedAsset`. -/
theorem swap_error_unsupported (self : DeauraAmm) (sp : SwapParams)
    (h1 : sp.source_mint ≠ VNX_MINT) (h2 : sp.source_mint ≠ GOLDC_MINT) :
    self.swap_instruction sp =
      Except.error (AmmError.unsupportedAsset sp.source_mint) ∧
    self.get_swap_and_account_metas sp =
      Except.error (AmmError.unsupportedAsset sp.source_mint) := by
  have hd : direction_from_source_mint sp.source_mint =
      Except.error (AmmError.unsupportedAsset sp.source_mint) := by
    simp only [direction_from_source_mint, if_neg h1, if_neg h2]
  refine ⟨?_, ?_⟩
  · simp only [DeauraAmm.swap_instruction, hd]
    rfl
  · simp only [DeauraAmm.get_swap_and_account_metas,
      DeauraAmm.swap_instruction, hd]
    rfl

/-- C2: every successful `get_swap_and_account_metas` call returns exactly
12 account references in the fixed order — the supplied transfer
authority first as the sole signer and writable, then the global-state
and vault-authority derived addresses, the GOLDC mint, the caller's GOLDC
token account, the VNX mint, the caller's VNX token account, the selected
vault, the per-user derived address (all writable, not signers), and the
three program ids read-only; `get_accounts_len` is always 12. -/
theorem get_swap_and_account_metas_layout (self : DeauraAmm)
    (sp : SwapParams) (r : SwapAndAccountMetas)
    (h : self.get_swap_and_account_metas sp = Except.ok r) :
    self.get_accounts_len = 12 ∧
    r.account_metas.length = 12 ∧
    ∃ goldc_ata vnx_ata vault,
      ((sp.source_mint = VNX_MINT ∧ vnx_ata = sp.source_token_account ∧
          goldc_ata = sp.destination_token_account ∧
          vault = VNX_DEPOSIT_VAULT) ∨
       (sp.source_mint = GOLDC_MINT ∧
          vnx_ata = sp.destination_token_account ∧
          goldc_ata = sp.source_token_account ∧
          vault = VNX_REDEEM_VAULT)) ∧
      r.account_metas =
        [ ⟨sp.token_transfer_authority, true, true⟩,
          ⟨derive_global_state, false, true⟩,
          ⟨derive_vault_authority, false, true⟩,
          ⟨GOLDC_MINT, false, true⟩,
          ⟨goldc_ata, false, true⟩,
          ⟨VNX_MINT, false, true⟩,
          ⟨vnx_ata, false, true⟩,
          ⟨vault, false, true⟩,
          ⟨derive_user_data sp.token_transfer_authority, false, true⟩,
          ⟨SPL_TOKEN_ID, false, false⟩,
          ⟨SPL_ASSOCIATED_TOKEN_ACCOUNT_ID, false, false⟩,
          ⟨SYSTEM_PROGRAM_ID, false, false⟩ ] := by
  obtain ⟨sm, dm, sta, dta, auth, amt⟩ := sp
  by_cases hv : sm = VNX_MINT
  · subst hv
    replace h : Except.ok (ε := AmmError)
        { swap := Swap.TokenSwap,
          account_metas := account_metas auth dta sta VNX_DEPOSIT_VAULT } =
        Except.ok r := h
    injection h with h
    subst h
    exact ⟨rfl, rfl, dta, sta, VNX_DEPOSIT_VAULT,
      Or.inl ⟨rfl, rfl, rfl, rfl⟩, rfl⟩
  · by_cases hg : sm = GOLDC_MINT
    · subst hg
      replace h : Except.ok (ε := AmmError)
          { swap := Swap.TokenSwap,
            account_metas := account_metas auth sta dta VNX_REDEEM_VAULT } =
          Except.ok r := h
      injection h with h
      subst h
      exact ⟨rfl, rfl, sta, dta, VNX_REDEEM_VAULT,
        Or.inr ⟨rfl, rfl, rfl, rfl⟩, rfl⟩
    · replace hv : (SwapParams.mk sm dm sta dta auth amt).source_mint ≠
        VNX_MINT := hv
      replace hg : (SwapParams.mk sm dm sta dta auth amt).source_mint ≠
        GOLDC_MINT := hg
      rw [(swap_error_unsupported self _ hv hg).2] at h
      exact absurd h (by simp)

/-- C2 witness: a concrete deposit-direction swap yields exactly 12
account references, and `get_accounts_len` is 12. -/
theorem get_swap_and_account_metas_layout_witness :
    DeauraAmm.get_accounts_len depositAmm = 12 ∧
    (SwapAndAccountMetas.mk Swap.TokenSwap
        (account_metas (Pubkey.user 3) (Pubkey.user 2) (Pubkey.user 1)
          VNX_DEPOSIT_VAULT)).account_metas.length = 12 := by
  have h : DeauraAmm.get_swap_and_account_metas depositAmm
      ⟨VNX_MINT, GOLDC_MINT, Pubkey.user 1, Pubkey.user 2, Pubkey.user 3,
        77⟩ =
      Except.ok ⟨Swap.TokenSwap,
        account_metas (Pubkey.user 3) (Pubkey.user 2) (Pubkey.user 1)
          VNX_DEPOSIT_VAULT⟩ := rfl
  have hh := get_swap_and_account_metas_layout depositAmm _ _ h
  exact ⟨hh.1, hh.2.1⟩

/-- C3: every successfully constructed instruction carries a 16-byte
payload: bytes 0–7 are the selector of the inferred direction (deposit
selector for a VNX source mint, redeem selector for a GOLDC source mint)
and bytes 8–15 are the input amount as an unsigned 64-bit little-endian
integer, with no padding or length prefix. -/
theorem swap_instruction_payload (self : DeauraAmm) (sp : SwapParams)
    (ix : Instruction) (hlt : sp.in_amount < 2 ^ 64)
    (h : self.swap_instruction sp = Except.ok ix) :
    ix.data.length = 16 ∧
    (sp.source_mint = VNX_MINT → ix.data.take 8 = DEPOSIT_IX_DISC) ∧
    (sp.source_mint = GOLDC_MINT → ix.data.take 8 = REDEEM_IX_DISC) ∧
    ix.data.drop 8 = u64_to_le_bytes sp.in_amount ∧
    u64_from_le_bytes (ix.data.drop 8) = sp.in_amount ∧
    ∀ b ∈ ix.data, b < 256 := by
  obtain ⟨sm, dm, sta, dta, auth, amt⟩ := sp
  replace hlt : amt < 2 ^ 64 := hlt
  by_cases hv : sm = VNX_MINT
  · subst hv
    replace h : Except.ok (ε := AmmError)
        { program_id := DEAURA_PROGRAM_ID,
          accounts := account_metas auth dta sta VNX_DEPOSIT_VAULT,
          data := ix_data DEPOSIT_IX_DISC amt } = Except.ok ix := h
    injection h with h
    subst h
    refine ⟨rfl, fun _ => rfl, ?_, rfl, u64_le_roundtrip amt hlt, ?_⟩
    · intro hc
      replace hc : (VNX_MINT : Pubkey) = GOLDC_MINT := hc
      exact absurd hc (by decide)
    · intro b hb
      simp only [ix_data, DEPOSIT_IX_DISC, u64_to_le_bytes, List.mem_append,
        List.mem_cons, List.not_mem_nil, or_false] at hb
      rcases hb with hb | hb
      · rcases hb with h | h | h | h | h | h | h | h <;> omega
      · rcases hb with h | h | h | h | h | h | h | h <;>
          (subst h; exact Nat.mod_lt _ (by decide))
  · by_cases hg : sm = GOLDC_MINT
    · subst hg
      replace h : Except.ok (ε := AmmError)
          { program_id := DEAURA_PROGRAM_ID,
            accounts := account_metas auth sta dta VNX_REDEEM_VAULT,
            data := ix_data REDEEM_IX_DISC amt } = Except.ok ix := h
      injection h with h
      subst h
      refine ⟨rfl, ?_, fun _ => rfl, rfl, u64_le_roundtrip amt hlt, ?_⟩
      · intro hc
        replace hc : (GOLDC_MINT : Pubkey) = VNX_MINT := hc
        exact absurd hc (by decide)
      · intro b hb
        simp only [ix_data, REDEEM_IX_DISC, u64_to_le_bytes, List.mem_append,
          List.mem_cons, List.not_mem_nil, or_false] at hb
        rcases hb with hb | hb
        · rcases hb with h | h | h | h | h | h | h | h <;> omega
        · rcases hb with h | h | h | h | h | h | h | h <;>
            (subst h; exact Nat.mod_lt _ (by decide))
    · replace hv : (SwapParams.mk sm dm sta dta auth amt).source_mint ≠
        VNX_MINT := hv
      replace hg : (SwapParams.mk sm dm sta dta auth amt).source_mint ≠
        GOLDC_MINT := hg
      rw [(swap_error_unsupported self _ hv hg).1] at h
      exact absurd h (by simp)

/-- C3 witness: a concrete redeem swap of amount 300 yields the redeem
selector followed by `300` in little-endian, 16 bytes in total. -/
theorem swap_instruction_payload_witness :
    (Instruction.mk DEAURA_PROGRAM_ID
        (account_metas (Pubkey.user 3) (Pubkey.user 1) (Pubkey.user 2)
          VNX_REDEEM_VAULT)
        (ix_data REDEEM_IX_DISC 300)).data.length = 16 ∧
    u64_from_le_bytes
      ((Instruction.mk DEAURA_PROGRAM_ID
          (account_metas (Pubkey.user 3) (Pubkey.user 1) (Pubkey.user 2)
            VNX_REDEEM_VAULT)
          (ix_data REDEEM_IX_DISC 300)).data.drop 8) = 300 := by
  have h : DeauraAmm.swap_instruction depositAmm
      ⟨GOLDC_MINT, VNX_MINT, Pubkey.user 1, Pubkey.user 2, Pubkey.user 3,
        300⟩ =
      Except.ok (Instruction.mk DEAURA_PROGRAM_ID
        (account_metas (Pubkey.user 3) (Pubkey.user 1) (Pubkey.user 2)
          VNX_REDEEM_VAULT)
        (ix_data REDEEM_IX_DISC 300)) := rfl
  have hh := swap_instruction_payload depositAmm _ _ (by decide) h
  exact ⟨hh.1, hh.2.2.2.2.1⟩

/-- C6: the source mint alone fixes the direction — `VNX_MINT` means
Deposit (source account in the VNX-token-account role, destination in the
GOLDC role, deposit selector, deposit vault), `GOLDC_MINT` means Redeem
with the roles swapped (redeem selector, redeem vault) — and any other
source mint fails with `unsupportedAsset`, producing no instruction. -/
theorem swap_direction_and_roles (self : DeauraAmm) (sp : SwapParams) :
    (sp.source_mint = VNX_MINT →
      direction_from_source_mint sp.source_mint =
        Except.ok DeauraDirection.Deposit ∧
      self.swap_instruction sp = Except.ok
        { program_id := DEAURA_PROGRAM_ID,
          accounts := account_metas sp.token_transfer_authority
            sp.destination_token_account sp.source_token_account
            VNX_DEPOSIT_VAULT,
          data := ix_data DEPOSIT_IX_DISC sp.in_amount }) ∧
    (sp.source_mint = GOLDC_MINT →
      direction_from_source_mint sp.source_mint =
        Except.ok DeauraDirection.Redeem ∧
      self.swap_instruction sp = Except.ok
        { program_id := DEAURA_PROGRAM_ID,
          accounts := account_metas sp.token_transfer_authority
            sp.source_token_account sp.destination_token_account
            VNX_REDEEM_VAULT,
          data := ix_data REDEEM_IX_DISC sp.in_amount }) ∧
    (sp.source_mint ≠ VNX_MINT → sp.source_mint ≠ GOLDC_MINT →
      direction_from_source_mint sp.source_mint =
        Except.error (AmmError.unsupportedAsset sp.source_mint) ∧
      self.swap_instruction sp =
        Except.error (AmmError.unsupportedAsset sp.source_mint)) := by
  obtain ⟨sm, dm, sta, dta, auth, amt⟩ := sp
  refine ⟨?_, ?_, ?_⟩
  · intro h
    replace h : sm = VNX_MINT := h
    subst h
    exact ⟨rfl, rfl⟩
  · intro h
    replace h : sm = GOLDC_MINT := h
    subst h
    exact ⟨rfl, rfl⟩
  · intro h1 h2
    have hs := swap_error_unsupported self ⟨sm, dm, sta, dta, auth, amt⟩ h1 h2
    refine ⟨?_, hs.1⟩
    replace h1 : sm ≠ VNX_MINT := h1
    replace h2 : sm ≠ GOLDC_MINT := h2
    simp only [direction_from_source_mint, if_neg h1, if_neg h2]

/-- C6 witness: a GOLDC source mint yields the redeem mapping and an
unknown source mint (`user 5`) fails with `unsupportedAsset`. -/
theorem swap_direction_and_roles_witness :
    (DeauraAmm.swap_instruction depositAmm
        ⟨GOLDC_MINT, VNX_MINT, Pubkey.user 1, Pubkey.user 2, Pubkey.user 3,
          9⟩ =
      Except.ok
        { program_id := DEAURA_PROGRAM_ID,
          accounts := account_metas (Pubkey.user 3) (Pubkey.user 1)
            (Pubkey.user 2) VNX_REDEEM_VAULT,
          data := ix_data REDEEM_IX_DISC 9 }) ∧
    (DeauraAmm.swap_instruction depositAmm
        ⟨Pubkey.user 5, VNX_MINT, Pubkey.user 1, Pubkey.user 2,
          Pubkey.user 3, 9⟩ =
      Except.error (AmmError.unsupportedAsset (Pubkey.user 5))) :=
  ⟨((swap_direction_and_roles depositAmm _).2.1 rfl).2,
   ((swap_direction_and_roles depositAmm _).2.2 (by decide) (by decide)).2⟩

/-- C10: `get_swap_and_account_metas` is independent of the instance's own
state — any two instances return identical results on the same
parameters — and the vault reference at index 7 (the eighth account) is
selected solely by the source mint: the deposit vault for a VNX source,
the redeem vault for a GOLDC source. -/
theorem get_swap_and_account_metas_state_independent (s1 s2 : DeauraAmm)
    (sp : SwapParams) :
    s1.get_swap_and_account_metas sp = s2.get_swap_and_account_metas sp ∧
    ∀ r, s1.get_swap_and_account_metas sp = Except.ok r →
      (sp.source_mint = VNX_MINT →
        r.account_metas[7]? = some (AccountMeta.new VNX_DEPOSIT_VAULT false)) ∧
      (sp.source_mint = GOLDC_MINT →
        r.account_metas[7]? = some (AccountMeta.new VNX_REDEEM_VAULT false)) := by
  obtain ⟨sm, dm, sta, dta, auth, amt⟩ := sp
  refine ⟨rfl, ?_⟩
  intro r h
  constructor
  · intro hv
    replace hv : sm = VNX_MINT := hv
    subst hv
    replace h : Except.ok (ε := AmmError)
        { swap := Swap.TokenSwap,
          account_metas := account_metas auth dta sta VNX_DEPOSIT_VAULT } =
        Except.ok r := h
    injection h with h
    subst h
    rfl
  · intro hg
    replace hg : sm = GOLDC_MINT := hg
    subst hg
    replace h : Except.ok (ε := AmmError)
        { swap := Swap.TokenSwap,
          account_metas := account_metas auth sta dta VNX_REDEEM_VAULT } =
        Except.ok r := h
    injection h with h
    subst h
    rfl

/-- C10 witness: a deposit-direction instance with zero reserve and a
redeem-direction instance with reserve 1000 return the very same metas
for a VNX-source swap, whose eighth account is the deposit vault. -/
theorem get_swap_and_account_metas_state_independent_witness :
    (DeauraAmm.get_swap_and_account_metas depositAmm
        ⟨VNX_MINT, GOLDC_MINT, Pubkey.user 1, Pubkey.user 2, Pubkey.user 3,
          77⟩ =
      DeauraAmm.get_swap_and_account_metas (redeemAmmWith 1000)
        ⟨VNX_MINT, GOLDC_MINT, Pubkey.user 1, Pubkey.user 2, Pubkey.user 3,
          77⟩) ∧
    (account_metas (Pubkey.user 3) (Pubkey.user 2) (Pubkey.user 1)
        VNX_DEPOSIT_VAULT)[7]? =
      some (AccountMeta.new VNX_DEPOSIT_VAULT false) := by
  have hh := get_swap_and_account_metas_state_independent depositAmm
    (redeemAmmWith 1000)
    ⟨VNX_MINT, GOLDC_MINT, Pubkey.user 1, Pubkey.user 2, Pubkey.user 3, 77⟩
  exact ⟨hh.1, (hh.2 ⟨Swap.TokenSwap,
    account_metas (Pubkey.user 3) (Pubkey.user 2) (Pubkey.user 1)
      VNX_DEPOSIT_VAULT⟩ rfl).1 rfl⟩

/-! ### Claims about reserve update and duplication -/

/-- Helper: `>>=` on an `Except.ok` value. -/
theorem except_bind_ok {α β ε : Type} (a : α) (f : α → Except ε β) :
    (Except.ok a : Except ε α) >>= f = f a := rfl

/-- Helper: `>>=` on an `Except.error` value. -/
theorem except_bind_error {α β ε : Type} (e : ε) (f : α → Except ε β) :
    (Except.error e : Except ε α) >>= f = (Except.error e : Except ε β) := rfl

/-- Helper: `throw` is `Except.error`. -/
theorem except_throw {α ε : Type} (e : ε) :
    (throw e : Except ε α) = Except.error e := rfl

/-- Helper: `pure` is `Except.ok`. -/
theorem except_pure {α ε : Type} (a : α) :
    (pure a : Except ε α) = Except.ok a := rfl

/-- Helper: a failing `unpack_coption_key` reports `malformedAccount`. -/
theorem unpack_coption_key_malformed (src : List Nat) (e : AmmError)
    (h : unpack_coption_key src = Except.error e) :
    e = AmmError.malformedAccount := by
  unfold unpack_coption_key at h
  split_ifs at h
  all_goals simp_all

/-- Helper: a failing `unpack_coption_u64` reports `malformedAccount`. -/
theorem unpack_coption_u64_malformed (src : List Nat) (e : AmmError)
    (h : unpack_coption_u64 src = Except.error e) :
    e = AmmError.malformedAccount := by
  unfold unpack_coption_u64 at h
  split_ifs at h
  all_goals simp_all

/-- Helper: a failing `unpack_from_slice` reports `malformedAccount`. -/
theorem unpack_from_slice_malformed (src : List Nat) (e : AmmError)
    (h : unpack_from_slice src = Except.error e) :
    e = AmmError.malformedAccount := by
  unfold unpack_from_slice at h
  rcases h1 : unpack_coption_key ((src.drop 72).take 36) with e1 | d1 <;>
    rw [h1] at h
  · rw [except_bind_error] at h
    injection h with h
    subst h
    exact unpack_coption_key_malformed _ _ h1
  · rw [except_bind_ok] at h
    dsimp only at h
    split_ifs at h with hs
    · rw [except_throw, except_bind_error] at h
      injection h with h
      exact h.symm
    · rw [except_pure, except_bind_ok] at h
      try dsimp only at h
      rcases h2 : unpack_coption_u64 ((src.drop 109).take 12) with e2 | n2 <;>
        rw [h2] at h
      · rw [except_bind_error] at h
        injection h with h
        subst h
        exact unpack_coption_u64_malformed _ _ h2
      · rw [except_bind_ok] at h
        rcases h3 : unpack_coption_key ((src.drop 129).take 36) with e3 | c3 <;>
          rw [h3] at h
        · rw [except_bind_error] at h
          injection h with h
          subst h
          exact unpack_coption_key_malformed _ _ h3
        · rw [except_bind_ok, except_pure] at h
          exact absurd h (by simp)

/-- Helper: a failing `TokenAccount.unpack` reports `malformedAccount`. -/
theorem unpack_malformed (data : List Nat) (e : AmmError)
    (h : TokenAccount.unpack data = Except.error e) :
    e = AmmError.malformedAccount := by
  unfold TokenAccount.unpack at h
  split_ifs at h with hl
  · rw [except_throw, except_bind_error] at h
    injection h with h
    exact h.symm
  · rw [except_pure, except_bind_ok] at h
    rcases h1 : unpack_from_slice data with e1 | acc <;> rw [h1] at h
    · rw [except_bind_error] at h
      injection h with h
      subst h
      exact unpack_from_slice_malformed _ _ h1
    · rw [except_bind_ok] at h
      split_ifs at h with hs
      · rw [except_throw, except_bind_error] at h
        injection h with h
        exact h.symm
      · try dsimp only at h
        exact absurd h (by simp)

/-- C7: `update` succeeds exactly when the map holds a payload for the
instance's identity that unpacks as a token-account record, in which case
`vnx_reserve` is replaced wholesale by the record's balance and no other
field changes; a missing entry fails with `accountNotFound`, an
undecodable payload with `malformedAccount` (failures return no state, so
the caller's `cached_reserve` is untouched), and the call is idempotent:
re-running `update` on its own successful result reproduces that
result. -/
theorem update_spec (self : DeauraAmm) (m : AccountMap) :
    (m self.vnx_vault = none →
      self.update m =
        Except.error (AmmError.accountNotFound self.vnx_vault)) ∧
    (∀ data acc, m self.vnx_vault = some data →
      TokenAccount.unpack data = Except.ok acc →
      self.update m = Except.ok
        { key := self.key, label := self.label,
          program_id := self.program_id, vnx_vault := self.vnx_vault,
          direction := self.direction, vnx_reserve := acc.amount }) ∧
    (∀ data e, m self.vnx_vault = some data →
      TokenAccount.unpack data = Except.error e →
      e = AmmError.malformedAccount ∧
      self.update m = Except.error AmmError.malformedAccount) ∧
    (∀ t, self.update m = Except.ok t → t.update m = Except.ok t) := by
  refine ⟨?_, ?_, ?_, ?_⟩
  · intro h
    simp only [DeauraAmm.update, try_get_account_data, h, except_bind_error]
  · intro data acc hm hu
    simp only [DeauraAmm.update, try_get_account_data, hm, except_bind_ok, hu]
    rfl
  · intro data e hm hu
    have he := unpack_malformed data e hu
    subst he
    refine ⟨rfl, ?_⟩
    simp only [DeauraAmm.update, try_get_account_data, hm, except_bind_ok, hu,
      except_bind_error]
  · intro t h
    rcases hm : m self.vnx_vault with _ | data
    · simp only [DeauraAmm.update, try_get_account_data, hm,
        except_bind_error] at h
      exact absurd h (by simp)
    · rcases hu : TokenAccount.unpack data with e | acc
      · simp only [DeauraAmm.update, try_get_account_data, hm,
          except_bind_ok, hu, except_bind_error] at h
        exact absurd h (by simp)
      · have h2 : self.update m = Except.ok
            { key := self.key, label := self.label,
              program_id := self.program_id, vnx_vault := self.vnx_vault,
              direction := self.direction, vnx_reserve := acc.amount } := by
          simp only [DeauraAmm.update, try_get_account_data, hm,
            except_bind_ok, hu]
          rfl
        rw [h2] at h
        injection h with h
        subst h
        simp only [DeauraAmm.update, try_get_account_data, hm,
          except_bind_ok, hu]
        rfl

/-- Concrete 165-byte token-account payload: zero mint and owner, balance
5000, no delegate, initialized state, not native, zero delegated amount,
no close authority. -/
def sampleTokenAccountData : List Nat :=
  List.replicate 32 0 ++ List.replicate 32 0 ++ [136, 19, 0, 0, 0, 0, 0, 0] ++
    ([0, 0, 0, 0] ++ List.replicate 32 0) ++ [1] ++
    ([0, 0, 0, 0] ++ List.replicate 8 0) ++ List.replicate 8 0 ++
    ([0, 0, 0, 0] ++ List.replicate 32 0)

/-- Account map holding `sampleTokenAccountData` for the redeem vault
only. -/
def sampleMap : AccountMap := fun k =>
  if k = VNX_REDEEM_VAULT then some sampleTokenAccountData else none

set_option maxRecDepth 4000 in
/-- C7 witness: updating a fresh redeem-direction instance against a
snapshot with balance 5000 caches 5000, and repeating the update
reproduces the same state (spec scenario C). -/
theorem update_spec_witness :
    DeauraAmm.update (redeemAmmWith 0) sampleMap =
      Except.ok (redeemAmmWith 5000) ∧
    DeauraAmm.update (redeemAmmWith 5000) sampleMap =
      Except.ok (redeemAmmWith 5000) := by
  have h1 : DeauraAmm.update (redeemAmmWith 0) sampleMap =
      Except.ok (redeemAmmWith 5000) :=
    (update_spec (redeemAmmWith 0) sampleMap).2.1 sampleTokenAccountData
      ⟨List.replicate 32 0, List.replicate 32 0, 5000, none, 1, none, 0,
        none⟩ rfl (by rfl)
  exact ⟨h1, (update_spec (redeemAmmWith 0) sampleMap).2.2.2
    (redeemAmmWith 5000) h1⟩

/-- C8: `clone_amm` copies identity, direction, label, program identity
and cached reserve, and the copy is observably identical to the source
(`clone_amm self = self` as values).  Independence of the copies is
inherent in the embedding's value semantics: `update` consumes an
instance and returns a fresh one, so updating either copy cannot alter
the other; this mirrors the Rust source, where `clone_amm` clones the
`String` label and copies every `Copy` field into a fresh `Box`, sharing
no reference with the original. -/
theorem clone_amm_spec (self : DeauraAmm) (m : AccountMap) :
    self.clone_amm.key = self.key ∧
    self.clone_amm.direction = self.direction ∧
    self.clone_amm.label = self.label ∧
    self.clone_amm.program_id = self.program_id ∧
    self.clone_amm.vnx_reserve = self.vnx_reserve ∧
    self.clone_amm = self ∧
    self.clone_amm.update m = self.update m :=
  ⟨rfl, rfl, rfl, rfl, rfl, rfl, rfl⟩
